import Mathlib

/-!
Verification of the Whisk scene-generation job queue: the data model in
`src/models.py` (Scene, QueueItem, QueueState over pydantic v2), the queue
configuration in `src/config.py`, and the QueueManager behaviour (persistence
and retry loop) described by the design document.  Machine integers are
modelled as `Int` (Python integers are unbounded), timestamps as an abstract
`Int` value (e.g. epoch microseconds), Python `None` as `Option.none`.
-/

namespace Whisk

/-- Timestamps (`datetime`) are opaque totally-ordered values for this
development; an `Int` (epoch microseconds) suffices. -/
abbrev Timestamp := Int

/-- `ImageFormat(str, Enum)` from `src/models.py`. -/
inductive ImageFormat where
  | landscape
  | portrait
  | square
  deriving DecidableEq, Repr

/-- `QueueStatus(str, Enum)` from `src/models.py`. -/
inductive QueueStatus where
  | pending
  | in_progress
  | completed
  | failed
  | skipped
  deriving DecidableEq, Repr

/-- `Scene(BaseModel)` from `src/models.py`.  Fields in declaration order. -/
structure Scene where
  scene_id : Int
  environment_id : String
  character_ids : List String
  prompt : String
  image_format : ImageFormat
  deriving DecidableEq, Repr

/-- `Scene.has_characters` property from `src/models.py`. -/
def Scene.has_characters (s : Scene) : Bool :=
  s.character_ids.length > 0

/-- The pydantic v2 constructor `Scene(...)` with all fields supplied.  The
source declares `scene_id`, `environment_id`, `prompt` with bare
`Field(...)`/`Field(default=...)` and no value constraints (no `min_length`,
no `ge`), so for well-typed arguments validation never fails; the `Except`
codomain records that pydantic construction can in principle raise
`ValidationError`. -/
def Scene.construct (scene_id : Int) (environment_id : String)
    (character_ids : List String) (prompt : String)
    (image_format : ImageFormat) : Except String Scene :=
  Except.ok { scene_id, environment_id, character_ids, prompt, image_format }

/-- `QueueItem(BaseModel)` from `src/models.py`.  Fields in declaration
order; `Optional[...] = None` fields are `Option`. -/
structure QueueItem where
  id : String
  scene : Scene
  batch_number : Int
  status : QueueStatus
  output_folder : String
  images_to_generate : Int
  retry_count : Int
  error_message : Option String
  created_at : Timestamp
  started_at : Option Timestamp
  completed_at : Option Timestamp
  deriving DecidableEq, Repr

/-- `QueueItem.total_images_expected` property from `src/models.py`. -/
def QueueItem.total_images_expected (it : QueueItem) : Int :=
  it.images_to_generate

/-- The pydantic v2 constructor `QueueItem(...)` with every field supplied
explicitly.  As in the source, `batch_number`, `retry_count` and
`images_to_generate` are declared with plain `Field(default=...)` and carry
no `ge`/bound constraint, so any integer value is accepted. -/
def QueueItem.construct (id : String) (scene : Scene) (batch_number : Int)
    (status : QueueStatus) (output_folder : String)
    (images_to_generate : Int) (retry_count : Int)
    (error_message : Option String) (created_at : Timestamp)
    (started_at : Option Timestamp) (completed_at : Option Timestamp) :
    Except String QueueItem :=
  Except.ok { id, scene, batch_number, status, output_folder,
              images_to_generate, retry_count, error_message, created_at,
              started_at, completed_at }

/-- The pydantic constructor `QueueItem(id=..., scene=..., output_folder=...)`
with only the three required fields supplied, every other field taking its
declared default from `src/models.py` (`created_at` takes
`default_factory=datetime.now`, modelled by the explicit `now` argument). -/
def QueueItem.mkDefault (id : String) (scene : Scene)
    (output_folder : String) (now : Timestamp) : QueueItem :=
  { id := id
    scene := scene
    batch_number := 1
    status := QueueStatus.pending
    output_folder := output_folder
    images_to_generate := 4
    retry_count := 0
    error_message := none
    created_at := now
    started_at := none
    completed_at := none }

/-- `QueueState(BaseModel)` from `src/models.py`. -/
structure QueueState where
  items : List QueueItem
  current_index : Int
  created_at : Timestamp
  last_updated : Timestamp
  deriving DecidableEq, Repr

/-- `QueueState.add_item` from `src/models.py`: `self.items.append(item);
self.last_updated = datetime.now()`.  The `now` argument stands for the
`datetime.now()` call. -/
def QueueState.add_item (st : QueueState) (item : QueueItem)
    (now : Timestamp) : QueueState :=
  { st with items := st.items ++ [item], last_updated := now }

/-- `QueueState.get_pending` from `src/models.py`. -/
def QueueState.get_pending (st : QueueState) : List QueueItem :=
  st.items.filter (fun item => item.status == QueueStatus.pending)

/-- `QueueState.get_in_progress` from `src/models.py`. -/
def QueueState.get_in_progress (st : QueueState) : List QueueItem :=
  st.items.filter (fun item => item.status == QueueStatus.in_progress)

/-- `QueueState.get_completed` from `src/models.py`. -/
def QueueState.get_completed (st : QueueState) : List QueueItem :=
  st.items.filter (fun item => item.status == QueueStatus.completed)

/-- `QueueState.get_failed` from `src/models.py`. -/
def QueueState.get_failed (st : QueueState) : List QueueItem :=
  st.items.filter (fun item => item.status == QueueStatus.failed)

/-- `QueueState.progress_percent` from `src/models.py`:
`if not self.items: return 0.0` then
`(len(self.get_completed()) / len(self.items)) * 100`.  The float arithmetic
is modelled over `ℚ`; the quantities involved (a ratio of small naturals and
the all-completed case `n/n * 100`) are exact in IEEE double as well. -/
def QueueState.progress_percent (st : QueueState) : ℚ :=
  if st.items = [] then 0
  else ((st.get_completed.length : ℚ) / (st.items.length : ℚ)) * 100

/-- `QueueConfig(BaseModel)` from `src/config.py`. -/
structure QueueConfig where
  retry_on_failure : Bool
  max_retries : Int
  delay_between_scenes : Int
  deriving DecidableEq, Repr

/-- Default `QueueConfig` values from `src/config.py`. -/
def QueueConfig.default : QueueConfig :=
  { retry_on_failure := true, max_retries := 3, delay_between_scenes := 5 }

/-! Concrete sample values used by witnesses and counterexamples. -/

/-- The happy-path scene of the design document. -/
def sampleScene : Scene :=
  { scene_id := 5
    environment_id := "kitchen"
    character_ids := ["grandma"]
    prompt := "tea time"
    image_format := ImageFormat.landscape }

/-- A sample item in terminal `completed` status. -/
def sampleCompletedItem : QueueItem :=
  { QueueItem.mkDefault "item-1" sampleScene "scene_005_batch_1" 0 with
      status := QueueStatus.completed }

/-- A queue holding the single completed sample item. -/
def sampleState : QueueState :=
  { items := [sampleCompletedItem]
    current_index := 0
    created_at := 0
    last_updated := 0 }

/-- A `QueueItem` value violating the documented bounds `batch_number ≥ 1`
and `retry_count ≥ 0`; the pydantic model accepts it. -/
def rogueItem : QueueItem :=
  { id := "rogue"
    scene := sampleScene
    batch_number := 0
    status := QueueStatus.pending
    output_folder := "out"
    images_to_generate := 4
    retry_count := -1
    error_message := none
    created_at := 0
    started_at := none
    completed_at := none }

/-- The sample scene with its prompt left empty. -/
def emptyPromptScene : Scene :=
  { scene_id := 7
    environment_id := "kitchen"
    character_ids := ["grandma"]
    prompt := ""
    image_format := ImageFormat.landscape }

/-!
Persistence (claim C1).  `queue_manager.py` is imported by `run.py` and the
other drivers but is absent from the repository snapshot, so the persisted
document and `save_state`/`load_state` are modelled from the design
document: a JSON document holding `items` (array of QueueItem records with
all fields of the data model), `current_index`, `created_at`,
`last_updated`; optional fields are `null` when absent and enums are
serialized as their string values.
-/

/-- A JSON-like document value, the shape of the persisted queue-state
file. -/
inductive JValue where
  | null
  | jint (n : Int)
  | jstr (s : String)
  | jarr (xs : List JValue)
  | jobj (fields : List (String × JValue))

/-- Key lookup in a JSON object; `none` on non-objects and absent keys. -/
def JValue.getField (j : JValue) (k : String) : Option JValue :=
  match j with
  | .jobj fs => (fs.find? (fun kv => kv.fst == k)).map Prod.snd
  | _ => none

/-- Read an integer payload. -/
def JValue.asInt : JValue → Option Int
  | .jint n => some n
  | _ => none

/-- Read a string payload. -/
def JValue.asStr : JValue → Option String
  | .jstr s => some s
  | _ => none

/-- Read each element of an array as a string. -/
def asStrs : List JValue → Option (List String)
  | [] => some []
  | j :: rest => do
      let s ← j.asStr
      let tail ← asStrs rest
      pure (s :: tail)

/-- Read an array of strings. -/
def JValue.asStrList : JValue → Option (List String)
  | .jarr xs => asStrs xs
  | _ => none

/-- Read a nullable integer (`null` ↦ `none`). -/
def JValue.asOptInt : JValue → Option (Option Int)
  | .null => some none
  | .jint n => some (some n)
  | _ => none

/-- Read a nullable string (`null` ↦ `none`). -/
def JValue.asOptStr : JValue → Option (Option String)
  | .null => some none
  | .jstr s => some (some s)
  | _ => none

/-- Serialized form of `QueueStatus`, the enum's string value. -/
def statusToString : QueueStatus → String
  | .pending => "pending"
  | .in_progress => "in_progress"
  | .completed => "completed"
  | .failed => "failed"
  | .skipped => "skipped"

/-- Parse a `QueueStatus` back from its string value. -/
def statusFromString : String → Option QueueStatus
  | "pending" => some .pending
  | "in_progress" => some .in_progress
  | "completed" => some .completed
  | "failed" => some .failed
  | "skipped" => some .skipped
  | _ => none

/-- Serialized form of `ImageFormat`, the enum's string value. -/
def formatToString : ImageFormat → String
  | .landscape => "landscape"
  | .portrait => "portrait"
  | .square => "square"

/-- Parse an `ImageFormat` back from its string value. -/
def formatFromString : String → Option ImageFormat
  | "landscape" => some .landscape
  | "portrait" => some .portrait
  | "square" => some .square
  | _ => none

/-- Encode an optional timestamp (`None` ↦ `null`). -/
def encodeOptTime : Option Timestamp → JValue
  | none => .null
  | some t => .jint t

/-- Encode an optional string (`None` ↦ `null`). -/
def encodeOptStr : Option String → JValue
  | none => .null
  | some s => .jstr s

/-- Encode a `Scene` as a JSON object. -/
def encodeScene (s : Scene) : JValue :=
  .jobj [("scene_id", .jint s.scene_id),
         ("environment_id", .jstr s.environment_id),
         ("character_ids", .jarr (s.character_ids.map JValue.jstr)),
         ("prompt", .jstr s.prompt),
         ("image_format", .jstr (formatToString s.image_format))]

/-- Decode a `Scene` from a JSON object. -/
def decodeScene (j : JValue) : Option Scene := do
  let sid ← (j.getField "scene_id").bind JValue.asInt
  let env ← (j.getField "environment_id").bind JValue.asStr
  let cids ← (j.getField "character_ids").bind JValue.asStrList
  let p ← (j.getField "prompt").bind JValue.asStr
  let fs ← (j.getField "image_format").bind JValue.asStr
  let fmt ← formatFromString fs
  pure { scene_id := sid
         environment_id := env
         character_ids := cids
         prompt := p
         image_format := fmt }

/-- Encode a `QueueItem` as a JSON object with every field of the model. -/
def encodeItem (it : QueueItem) : JValue :=
  .jobj [("id", .jstr it.id),
         ("scene", encodeScene it.scene),
         ("batch_number", .jint it.batch_number),
         ("status", .jstr (statusToString it.status)),
         ("output_folder", .jstr it.output_folder),
         ("images_to_generate", .jint it.images_to_generate),
         ("retry_count", .jint it.retry_count),
         ("error_message", encodeOptStr it.error_message),
         ("created_at", .jint it.created_at),
         ("started_at", encodeOptTime it.started_at),
         ("completed_at", encodeOptTime it.completed_at)]

/-- Decode a `QueueItem` from a JSON object. -/
def decodeItem (j : JValue) : Option QueueItem := do
  let id ← (j.getField "id").bind JValue.asStr
  let sc ← (j.getField "scene").bind decodeScene
  let bn ← (j.getField "batch_number").bind JValue.asInt
  let stS ← (j.getField "status").bind JValue.asStr
  let st ← statusFromString stS
  let folder ← (j.getField "output_folder").bind JValue.asStr
  let img ← (j.getField "images_to_generate").bind JValue.asInt
  let rc ← (j.getField "retry_count").bind JValue.asInt
  let err ← (j.getField "error_message").bind JValue.asOptStr
  let ca ← (j.getField "created_at").bind JValue.asInt
  let sa ← (j.getField "started_at").bind JValue.asOptInt
  let comp ← (j.getField "completed_at").bind JValue.asOptInt
  pure { id := id
         scene := sc
         batch_number := bn
         status := st
         output_folder := folder
         images_to_generate := img
         retry_count := rc
         error_message := err
         created_at := ca
         started_at := sa
         completed_at := comp }

/-- Decode each element of an array as a `QueueItem`. -/
def decodeItems : List JValue → Option (List QueueItem)
  | [] => some []
  | j :: rest => do
      let it ← decodeItem j
      let tail ← decodeItems rest
      pure (it :: tail)

/-- Modelled from the spec: `QueueManager.save_state` (in the missing
`queue_manager.py`) writes the queue state as a JSON document with `items`,
`current_index`, `created_at` and `last_updated`. -/
def save_state (st : QueueState) : JValue :=
  .jobj [("items", .jarr (st.items.map encodeItem)),
         ("current_index", .jint st.current_index),
         ("created_at", .jint st.created_at),
         ("last_updated", .jint st.last_updated)]

/-- Modelled from the spec: `QueueManager.load_state` (in the missing
`queue_manager.py`) parses the persisted JSON document back into a
`QueueState`; `none` signals a corrupt document. -/
def load_state (j : JValue) : Option QueueState := do
  let itemsJ ← j.getField "items"
  let itemsArr ← match itemsJ with
    | .jarr xs => some xs
    | _ => none
  let items ← decodeItems itemsArr
  let ci ← (j.getField "current_index").bind JValue.asInt
  let ca ← (j.getField "created_at").bind JValue.asInt
  let lu ← (j.getField "last_updated").bind JValue.asInt
  pure { items := items
         current_index := ci
         created_at := ca
         last_updated := lu }

/-!
Retry state machine (claim C2).  `queue_manager.py` is missing from the
snapshot, so `process_item`, `process_queue` and `reset_failed` are
modelled from the design document's per-item processing algorithm:
skip non-pending items; mark `in_progress` with `started_at`; a missing
reference asset fails the item without consuming a retry; a successful
generation completes it; a failed generation increments `retry_count` and
re-queues as `pending` while `retry_count < max_retries` with
`retry_on_failure` enabled, else marks it terminally `failed`.
-/

/-- The outcome of one generation attempt for one item, as seen by the
queue manager: success, a failed attempt (timeout / zero images / all
images below the size threshold), or a missing reference asset, which is a
configuration failure outside the retry budget. -/
inductive Outcome where
  | success
  | failure (msg : String)
  | assetMissing (msg : String)
  deriving DecidableEq, Repr

/-- Modelled from the spec: one step of `QueueManager.process_item` (in the
missing `queue_manager.py`), steps 1-7 of the per-item algorithm; `now`
stands for the wall-clock reads. -/
def process_item (cfg : QueueConfig) (o : Outcome) (now : Timestamp)
    (item : QueueItem) : QueueItem :=
  if item.status ≠ QueueStatus.pending then item
  else
    let started := { item with
        status := QueueStatus.in_progress
        started_at := some now }
    match o with
    | .success =>
        { started with
            status := QueueStatus.completed
            completed_at := some now }
    | .assetMissing msg =>
        { started with
            status := QueueStatus.failed
            error_message := some msg }
    | .failure msg =>
        let rc := started.retry_count + 1
        if rc < cfg.max_retries ∧ cfg.retry_on_failure = true then
          { started with
              status := QueueStatus.pending
              retry_count := rc
              error_message := some msg }
        else
          { started with
              status := QueueStatus.failed
              retry_count := rc
              error_message := some msg }

/-- Modelled from the spec: `QueueManager.process_queue` (in the missing
`queue_manager.py`) runs `process_item` over the items pending at call
start (`process_item` itself skips non-pending items) and bumps
`last_updated`; `f` supplies each item's generation outcome. -/
def process_queue (cfg : QueueConfig) (f : QueueItem → Outcome)
    (now : Timestamp) (st : QueueState) : QueueState :=
  { st with
      items := st.items.map (fun it => process_item cfg (f it) now it)
      last_updated := now }

/-- Modelled from the spec: `QueueManager.reset_failed` (in the missing
`queue_manager.py`) re-queues every failed item as pending with a fresh
retry budget. -/
def reset_failed (now : Timestamp) (st : QueueState) : QueueState :=
  { st with
      items := st.items.map (fun it =>
        if it.status = QueueStatus.failed then
          { it with status := QueueStatus.pending, retry_count := 0 }
        else it)
      last_updated := now }

/-- Fold a sequence of processing attempts over a single item. -/
def run_item (cfg : QueueConfig) (steps : List (Outcome × Timestamp))
    (item : QueueItem) : QueueItem :=
  steps.foldl (fun acc s => process_item cfg s.1 s.2 acc) item

/-- Four consecutive failing generation attempts. -/
def sampleFailSteps : List (Outcome × Timestamp) :=
  [(Outcome.failure "timeout", 1), (Outcome.failure "timeout", 2),
   (Outcome.failure "timeout", 3), (Outcome.failure "timeout", 4)]

/-- A sample item that has exhausted its retry budget. -/
def sampleFailedItem : QueueItem :=
  { QueueItem.mkDefault "item-2" sampleScene "scene_005_batch_2" 0 with
      status := QueueStatus.failed
      retry_count := 3
      error_message := some "zero images" }

/-- A queue holding the single failed sample item. -/
def sampleFailedState : QueueState :=
  { items := [sampleFailedItem]
    current_index := 0
    created_at := 0
    last_updated := 0 }

/-- The retry invariant: an item is either terminally failed with its
retry count within the budget, or still has budget left. -/
def RetryInv (cfg : QueueConfig) (it : QueueItem) : Prop :=
  (it.status = QueueStatus.failed ∧ it.retry_count ≤ cfg.max_retries)
    ∨ it.retry_count < cfg.max_retries

/-!
Scene ownership (claim C7).  Python objects live on a heap and `QueueItem`
construction goes through pydantic v2 field validation; the repository uses
pydantic v2 (`model_dump()` in `src/config.py`), whose default
`revalidate_instances='never'` accepts an already-valid `Scene` instance
as-is: the queued item stores the caller's object reference, it does not
copy.  The heap of mutable `Scene` objects is made explicit as a store and
references as indices into it.
-/

/-- A store of mutable `Scene` objects; a `SceneRef` indexes into it. -/
structure SceneStore where
  cells : List Scene
  deriving DecidableEq, Repr

/-- A reference to a `Scene` object in a store. -/
abbrev SceneRef := Nat

/-- Dereference a scene object. -/
def SceneStore.lookup (h : SceneStore) (r : SceneRef) : Option Scene :=
  h.cells[r]?

/-- In-place update of the `prompt` attribute of one cell (the Python
statement `s.prompt = p` on the caller's object). -/
def setPromptCells : List Scene → Nat → String → List Scene
  | [], _, _ => []
  | s :: rest, 0, p => { s with prompt := p } :: rest
  | s :: rest, n + 1, p => s :: setPromptCells rest n p

/-- Mutate the `prompt` field of the object behind `r`. -/
def SceneStore.set_prompt (h : SceneStore) (r : SceneRef) (p : String) :
    SceneStore :=
  ⟨setPromptCells h.cells r p⟩

/-- A queued item as it refers to its scene object on the heap. -/
structure QueueItemHandle where
  id : String
  sceneRef : SceneRef
  deriving DecidableEq, Repr

/-- `QueueItem(id=..., scene=s, ...)` under pydantic v2 field validation
with the default `revalidate_instances='never'`: the caller's `Scene`
instance is used as-is, so the stored reference is the caller's
reference. -/
def mkQueueItemHandle (id : String) (callerScene : SceneRef) :
    QueueItemHandle :=
  { id := id, sceneRef := callerScene }

/-- The queued item's scene payload, read through its stored reference. -/
def QueueItemHandle.scenePayload (it : QueueItemHandle)
    (store : SceneStore) : Option Scene :=
  store.lookup it.sceneRef

/-- A heap with one scene object, referenced by the caller as index 0. -/
def aliasStore : SceneStore := ⟨[sampleScene]⟩

/-- The item queued with the caller's scene reference. -/
def aliasItem : QueueItemHandle := mkQueueItemHandle "item-1" 0

/-- The heap after the caller mutates its scene's prompt. -/
def aliasStoreMutated : SceneStore := aliasStore.set_prompt 0 "midnight snack"

/-! Theorems for the claims about `src/models.py`. -/

/-- C3: `get_pending()/get_in_progress()/get_completed()/get_failed()` each
return exactly the items of the respective status, in the relative order the
items occupy in `state.items` (an order-preserving sublist); being pure
functions of the state in this embedding, they perform no mutation. -/
theorem get_views_filter_characterization (st : QueueState) :
    (st.get_pending.Sublist st.items
      ∧ ∀ it, it ∈ st.get_pending ↔
          it ∈ st.items ∧ it.status = QueueStatus.pending)
    ∧ (st.get_in_progress.Sublist st.items
      ∧ ∀ it, it ∈ st.get_in_progress ↔
          it ∈ st.items ∧ it.status = QueueStatus.in_progress)
    ∧ (st.get_completed.Sublist st.items
      ∧ ∀ it, it ∈ st.get_completed ↔
          it ∈ st.items ∧ it.status = QueueStatus.completed)
    ∧ (st.get_failed.Sublist st.items
      ∧ ∀ it, it ∈ st.get_failed ↔
          it ∈ st.items ∧ it.status = QueueStatus.failed) := by
  refine ⟨⟨List.filter_sublist _, ?_⟩, ⟨List.filter_sublist _, ?_⟩,
    ⟨List.filter_sublist _, ?_⟩, ⟨List.filter_sublist _, ?_⟩⟩ <;>
    intro it <;>
    simp [QueueState.get_pending, QueueState.get_in_progress,
      QueueState.get_completed, QueueState.get_failed, List.mem_filter]

/-- C9: on the empty queue `progress_percent` is guarded and returns `0.0`
instead of dividing by the zero item count. -/
theorem progress_percent_empty_total (ci : Int) (ca lu : Timestamp) :
    QueueState.progress_percent
      { items := [], current_index := ci, created_at := ca,
        last_updated := lu } = 0 := by
  simp [QueueState.progress_percent]

/-- C4: on a non-empty queue `progress_percent` equals the number of
completed items divided by the total item count, times 100; when every item
is completed this is exactly 100. -/
theorem progress_percent_ratio (st : QueueState) (h : st.items ≠ []) :
    st.progress_percent
        = ((st.items.countP
              (fun it => it.status == QueueStatus.completed) : ℚ)
            / (st.items.length : ℚ)) * 100
    ∧ ((∀ it ∈ st.items, it.status = QueueStatus.completed) →
        st.progress_percent = 100) := by
  have hlen : (st.items.length : ℚ) ≠ 0 := by
    exact_mod_cast fun hc => h (List.length_eq_zero.mp (by exact_mod_cast hc))
  constructor
  · simp [QueueState.progress_percent, QueueState.get_completed, h,
      ← List.countP_eq_length_filter]
  · intro hall
    have hcount : st.items.countP
        (fun it => it.status == QueueStatus.completed) = st.items.length := by
      apply List.countP_eq_length.mpr
      intro it hit
      simpa using hall it hit
    simp [QueueState.progress_percent, QueueState.get_completed, h,
      ← List.countP_eq_length_filter, hcount, div_self hlen]

/-- Witness for C4 at the concrete one-item completed queue. -/
theorem progress_percent_ratio_witness :
    sampleState.items ≠ [] ∧
    (sampleState.progress_percent
        = ((sampleState.items.countP
              (fun it => it.status == QueueStatus.completed) : ℚ)
            / (sampleState.items.length : ℚ)) * 100
    ∧ ((∀ it ∈ sampleState.items, it.status = QueueStatus.completed) →
        sampleState.progress_percent = 100)) :=
  ⟨by decide, progress_percent_ratio sampleState (by decide)⟩

/-- C8: `add_item` appends the item at the end, leaves every pre-existing
position and the fields `current_index` and `created_at` unchanged, grows
the list by exactly one, and bumps `last_updated` to the time of the call. -/
theorem add_item_frame (st : QueueState) (it : QueueItem) (now : Timestamp) :
    (st.add_item it now).items.length = st.items.length + 1
    ∧ (∀ i, i < st.items.length →
        (st.add_item it now).items[i]? = st.items[i]?)
    ∧ (st.add_item it now).items[st.items.length]? = some it
    ∧ (st.add_item it now).items.getLast? = some it
    ∧ (st.add_item it now).current_index = st.current_index
    ∧ (st.add_item it now).created_at = st.created_at
    ∧ (st.add_item it now).last_updated = now := by
  refine ⟨?_, ?_, ?_, ?_, rfl, rfl, rfl⟩
  · simp [QueueState.add_item]
  · intro i hi
    simp [QueueState.add_item, List.getElem?_append, hi]
  · simp [QueueState.add_item]
  · simp [QueueState.add_item]

/-- C10: a `QueueItem` built from only `id`, `scene` and `output_folder`
starts pending, in batch 1, expecting 4 images, with zero retries and no
error message, start or completion timestamps. -/
theorem queueitem_default_fields (id : String) (sc : Scene)
    (folder : String) (now : Timestamp) :
    (QueueItem.mkDefault id sc folder now).status = QueueStatus.pending
    ∧ (QueueItem.mkDefault id sc folder now).batch_number = 1
    ∧ (QueueItem.mkDefault id sc folder now).images_to_generate = 4
    ∧ (QueueItem.mkDefault id sc folder now).retry_count = 0
    ∧ (QueueItem.mkDefault id sc folder now).error_message = none
    ∧ (QueueItem.mkDefault id sc folder now).started_at = none
    ∧ (QueueItem.mkDefault id sc folder now).completed_at = none :=
  ⟨rfl, rfl, rfl, rfl, rfl, rfl, rfl⟩

/-- C5 counterexample: the pydantic model declares no `ge` bounds, so a
`QueueItem` with `batch_number = 0 < 1` and `retry_count = -1 < 0` is
constructible, contradicting the claim that no such item can exist. -/
theorem queueitem_bounds_violating_constructible :
    QueueItem.construct "rogue" sampleScene 0 QueueStatus.pending "out" 4
        (-1) none 0 none none = Except.ok rogueItem
    ∧ rogueItem.batch_number < 1 ∧ rogueItem.retry_count < 0 := by
  refine ⟨rfl, by decide, by decide⟩

/-- C5 amended: the declared defaults satisfy `batch_number = 1 ≥ 1` and
`retry_count = 0 ≥ 0`, but the bounds are not validated: the constructor
accepts every integer for both fields. -/
theorem queueitem_bounds_not_validated (id : String) (sc : Scene)
    (folder : String) (now : Timestamp) (b r : Int) :
    1 ≤ (QueueItem.mkDefault id sc folder now).batch_number
    ∧ 0 ≤ (QueueItem.mkDefault id sc folder now).retry_count
    ∧ ∃ itm, QueueItem.construct id sc b QueueStatus.pending folder 4 r
        none now none none = Except.ok itm
        ∧ itm.batch_number = b ∧ itm.retry_count = r := by
  exact ⟨le_refl 1, le_refl 0, _, rfl, rfl, rfl⟩

/-- C6 counterexample: constructing a `Scene` whose prompt is the empty
string succeeds (pydantic checks only presence and type, not
non-emptiness), contradicting the claim that it is rejected. -/
theorem empty_prompt_scene_accepted :
    Scene.construct 7 "kitchen" ["grandma"] "" ImageFormat.landscape
      = Except.ok emptyPromptScene := rfl

/-- C6 amended: `Scene` construction performs no value validation: an empty
prompt is accepted, and so are an empty `environment_id` together with an
empty `character_ids` list. -/
theorem scene_construct_never_rejects (sid : Int) (env : String)
    (chars : List String) (p : String) (fmt : ImageFormat) :
    Scene.construct sid env chars "" fmt
        = Except.ok { scene_id := sid
                      environment_id := env
                      character_ids := chars
                      prompt := ""
                      image_format := fmt }
    ∧ Scene.construct sid "" [] p fmt
        = Except.ok { scene_id := sid
                      environment_id := ""
                      character_ids := []
                      prompt := p
                      image_format := fmt } :=
  ⟨rfl, rfl⟩

/-- Decoding a mapped string array gives back the original strings. -/
theorem asStrs_map_jstr (l : List String) :
    asStrs (l.map JValue.jstr) = some l := by
  induction l with
  | nil => rfl
  | cons a rest ih => simp [asStrs, JValue.asStr, ih]

/-- `statusFromString` inverts `statusToString`. -/
theorem statusFromString_toString (st : QueueStatus) :
    statusFromString (statusToString st) = some st := by
  cases st <;> rfl

/-- `formatFromString` inverts `formatToString`. -/
theorem formatFromString_toString (f : ImageFormat) :
    formatFromString (formatToString f) = some f := by
  cases f <;> rfl

/-- Scene encoding round-trips. -/
theorem decodeScene_encodeScene (s : Scene) :
    decodeScene (encodeScene s) = some s := by
  simp [decodeScene, encodeScene, JValue.getField, List.find?,
    JValue.asInt, JValue.asStr, JValue.asStrList, asStrs_map_jstr,
    formatFromString_toString]

/-- Optional-string encoding round-trips. -/
theorem asOptStr_encodeOptStr (o : Option String) :
    (encodeOptStr o).asOptStr = some o := by
  cases o <;> rfl

/-- Optional-timestamp encoding round-trips. -/
theorem asOptInt_encodeOptTime (o : Option Timestamp) :
    (encodeOptTime o).asOptInt = some o := by
  cases o <;> rfl

/-- QueueItem encoding round-trips. -/
theorem decodeItem_encodeItem (it : QueueItem) :
    decodeItem (encodeItem it) = some it := by
  simp [decodeItem, encodeItem, JValue.getField, List.find?,
    JValue.asInt, JValue.asStr, decodeScene_encodeScene,
    statusFromString_toString, asOptStr_encodeOptStr,
    asOptInt_encodeOptTime]

/-- Item lists decode element-wise back to themselves. -/
theorem decodeItems_map_encodeItem (items : List QueueItem) :
    decodeItems (items.map encodeItem) = some items := by
  induction items with
  | nil => rfl
  | cons a rest ih => simp [decodeItems, decodeItem_encodeItem, ih]

/-- C1: persistence round-trip: parsing the saved JSON document of any
queue state reproduces every field exactly - all items with scene payloads,
status strings, `batch_number`, `retry_count` and timestamps, as well as
`current_index`, `created_at` and `last_updated`. -/
theorem load_save_roundtrip (st : QueueState) :
    load_state (save_state st) = some st := by
  simp [load_state, save_state, JValue.getField, List.find?,
    JValue.asInt, decodeItems_map_encodeItem]

/-- One `process_item` step preserves the retry invariant. -/
theorem process_item_retryInv (cfg : QueueConfig) (o : Outcome)
    (now : Timestamp) (it : QueueItem) (h : RetryInv cfg it) :
    RetryInv cfg (process_item cfg o now it) := by
  unfold RetryInv at h ⊢
  by_cases hp : it.status = QueueStatus.pending
  · have hlt : it.retry_count < cfg.max_retries := by
      rcases h with ⟨hf, _⟩ | hlt
      · rw [hp] at hf; cases hf
      · exact hlt
    cases o with
    | success => simp [process_item, hp]; omega
    | assetMissing msg => simp [process_item, hp]; omega
    | failure msg =>
        by_cases hc : it.retry_count + 1 < cfg.max_retries
            ∧ cfg.retry_on_failure = true
        · simp [process_item, hp, hc]
        · simp [process_item, hp, hc]
          omega
  · simpa [process_item, hp] using h

/-- A whole attempt sequence preserves the retry invariant. -/
theorem run_item_retryInv (cfg : QueueConfig)
    (steps : List (Outcome × Timestamp)) (it : QueueItem)
    (h : RetryInv cfg it) : RetryInv cfg (run_item cfg steps it) := by
  induction steps generalizing it with
  | nil => simpa [run_item] using h
  | cons s rest ih =>
      have := process_item_retryInv cfg s.1 s.2 it h
      simpa [run_item, List.foldl_cons] using ih _ this

/-- `process_item` never touches an item that is not pending. -/
theorem process_item_frozen (cfg : QueueConfig) (o : Outcome)
    (now : Timestamp) (it : QueueItem)
    (h : it.status ≠ QueueStatus.pending) :
    process_item cfg o now it = it := by
  simp [process_item, h]

/-- C2: starting an item fresh (retry_count 0), under any sequence of
processing attempts with any outcomes, `retry_count` never exceeds the
configured `max_retries` (assumed positive, default 3); once it reaches
that bound the status is `failed`; a failed item is left untouched by every
further `process_queue` pass; and `reset_failed` is what re-queues it as
`pending` with `retry_count` reset to 0. -/
theorem retry_bound_invariant (cfg : QueueConfig)
    (steps : List (Outcome × Timestamp)) (id0 : String) (sc : Scene)
    (folder : String) (t0 : Timestamp) (it : QueueItem) (st : QueueState)
    (k : Nat) (f : QueueItem → Outcome) (n1 n2 : Timestamp)
    (hmax : 1 ≤ cfg.max_retries)
    (hfail : it.status = QueueStatus.failed)
    (hk : st.items[k]? = some it) :
    (run_item cfg steps (QueueItem.mkDefault id0 sc folder t0)).retry_count
        ≤ cfg.max_retries
    ∧ ((run_item cfg steps
          (QueueItem.mkDefault id0 sc folder t0)).retry_count
            = cfg.max_retries →
        (run_item cfg steps (QueueItem.mkDefault id0 sc folder t0)).status
          = QueueStatus.failed)
    ∧ (process_queue cfg f n1 st).items[k]? = some it
    ∧ (reset_failed n2 st).items[k]? = some
        { it with status := QueueStatus.pending, retry_count := 0 } := by
  have hfresh : RetryInv cfg (QueueItem.mkDefault id0 sc folder t0) := by
    right
    simpa [QueueItem.mkDefault] using hmax
  have hinv := run_item_retryInv cfg steps _ hfresh
  refine ⟨?_, ?_, ?_, ?_⟩
  · rcases hinv with ⟨_, hle⟩ | hlt
    · exact hle
    · exact le_of_lt hlt
  · intro heq
    rcases hinv with ⟨hf, _⟩ | hlt
    · exact hf
    · omega
  · have hne : it.status ≠ QueueStatus.pending := by
      rw [hfail]; intro hc; cases hc
    simp [process_queue, List.getElem?_map, hk,
      process_item_frozen cfg (f it) n1 it hne]
  · simp [reset_failed, List.getElem?_map, hk, hfail]

/-- Witness for C2 at the default configuration, a three-failure attempt
sequence and a singleton failed queue. -/
theorem retry_bound_invariant_witness :
    (1 ≤ QueueConfig.default.max_retries
      ∧ sampleFailedState.items[0]? = some sampleFailedItem
      ∧ sampleFailedItem.status = QueueStatus.failed)
    ∧ ((run_item QueueConfig.default sampleFailSteps
          (QueueItem.mkDefault "w" sampleScene "f" 0)).retry_count
            ≤ QueueConfig.default.max_retries
    ∧ ((run_item QueueConfig.default sampleFailSteps
          (QueueItem.mkDefault "w" sampleScene "f" 0)).retry_count
            = QueueConfig.default.max_retries →
        (run_item QueueConfig.default sampleFailSteps
          (QueueItem.mkDefault "w" sampleScene "f" 0)).status
          = QueueStatus.failed)
    ∧ (process_queue QueueConfig.default (fun _ => Outcome.success) 9
        sampleFailedState).items[0]? = some sampleFailedItem
    ∧ (reset_failed 10 sampleFailedState).items[0]? = some
        { sampleFailedItem with
            status := QueueStatus.pending
            retry_count := 0 }) :=
  ⟨⟨by decide, by decide, by decide⟩,
    retry_bound_invariant QueueConfig.default sampleFailSteps "w"
      sampleScene "f" 0 sampleFailedItem sampleFailedState 0
      (fun _ => Outcome.success) 9 10 (by decide) (by decide) (by decide)⟩

/-- C7 counterexample: after the caller mutates the prompt of the `Scene`
object it passed in, the queued item's scene payload has changed too (to
the new prompt): pydantic v2 stored the same object, not a copy, so the
claimed by-value ownership fails. -/
theorem queued_scene_aliases_caller :
    aliasItem.scenePayload aliasStoreMutated
        ≠ aliasItem.scenePayload aliasStore
    ∧ (aliasItem.scenePayload aliasStoreMutated).map Scene.prompt
        = some "midnight snack" := by
  exact ⟨by decide, rfl⟩

/-- Updating a cell is visible at its index. -/
theorem setPromptCells_lookup (cells : List Scene) (r : Nat) (p : String)
    (s : Scene) (h : cells[r]? = some s) :
    (setPromptCells cells r p)[r]? = some { s with prompt := p } := by
  induction cells generalizing r with
  | nil => simp at h
  | cons a rest ih =>
      cases r with
      | zero =>
          simp at h
          simp [setPromptCells, h]
      | succ n =>
          simp at h
          simpa [setPromptCells] using ih n h

/-- C7 amended: a `QueueItem` stores the caller's `Scene` by reference
(pydantic v2 does not copy already-valid instances), so mutating a field of
the caller's Scene object is visible through the queued item's scene
payload. -/
theorem queued_scene_mutation_visible (store : SceneStore) (id : String)
    (r : SceneRef) (p : String) (s : Scene)
    (h : store.lookup r = some s) :
    (mkQueueItemHandle id r).scenePayload (store.set_prompt r p)
      = some { s with prompt := p } := by
  simpa [QueueItemHandle.scenePayload, mkQueueItemHandle,
    SceneStore.lookup, SceneStore.set_prompt]
    using setPromptCells_lookup store.cells r p s h

/-- Witness for C7's amended statement at the concrete one-object heap. -/
theorem queued_scene_mutation_visible_witness :
    aliasStore.lookup 0 = some sampleScene
    ∧ (mkQueueItemHandle "item-1" 0).scenePayload
        (aliasStore.set_prompt 0 "midnight snack")
      = some { sampleScene with prompt := "midnight snack" } :=
  ⟨by decide,
    queued_scene_mutation_visible aliasStore "item-1" 0 "midnight snack"
      sampleScene (by decide)⟩

end Whisk
